import Mathlib

/-!
Shallow embedding of the wolfie3d core (src/wolfie3d/game.py): the DDA
raycaster, the billboard depth encoding, the camera-basis rotation, the
entity simulation (Bullet, Enemy, AmmoBox), the wave tuning functions and
the per-tick entity phase of the frame loop.  Python floats are modelled
as elements of a linear ordered field (instantiated at ℚ or ℝ); Python's
`int(...)` truncation and `math.floor` are modelled with the floor/ceil
structure of a `FloorRing`.
-/

namespace Wolfie3d

section Core

variable {α : Type*} [LinearOrderedField α] [FloorRing α]

/-- Screen width in pixels (`WIDTH = 1024` in the config block). -/
def WIDTH : ℕ := 1024

/-- Screen height in pixels (`HEIGHT = 600` in the config block). -/
def HEIGHT : ℕ := 600

/-- Far plane used for depth normalisation (`FAR_PLANE = 100.0`). -/
def FAR_PLANE : α := 100

/-- `clamp01` from the helper block: clamp a value to `[0, 1]`. -/
def clamp01 (x : α) : α := if x < 0 then 0 else if x > 1 then 1 else x

/-- Python's `int(...)` applied to a float: truncation toward zero. -/
def trunc (q : α) : ℤ := if 0 ≤ q then ⌊q⌋ else ⌈q⌉

/-- The grid map: dimensions `MAP_W`/`MAP_H` and the cell lookup
`MAP[iy][ix]` (0 = empty, >0 = wall material id). -/
structure Grid where
  w : ℤ
  h : ℤ
  cell : ℤ → ℤ → ℕ

/-- Build a `Grid` from a row-major list of rows, as the source's `MAP`
literal: `MAP_W = len(MAP[0])`, `MAP_H = len(MAP)`, lookup `MAP[iy][ix]`. -/
def Grid.ofList (rows : List (List ℕ)) : Grid where
  w := ((rows.headD []).length : ℤ)
  h := (rows.length : ℤ)
  cell := fun ix iy =>
    if 0 ≤ ix ∧ 0 ≤ iy then ((rows.getD iy.toNat []).getD ix.toNat 0) else 0

/-- `in_map(ix, iy)`: `0 <= ix < MAP_W and 0 <= iy < MAP_H`. -/
def in_map (g : Grid) (ix iy : ℤ) : Prop :=
  0 ≤ ix ∧ ix < g.w ∧ 0 ≤ iy ∧ iy < g.h

instance (g : Grid) (ix iy : ℤ) : Decidable (in_map g ix iy) := by
  unfold in_map; infer_instance

/-- `is_wall(ix, iy)`: `in_map(ix, iy) and MAP[iy][ix] > 0`. -/
def is_wall (g : Grid) (ix iy : ℤ) : Prop :=
  in_map g ix iy ∧ 0 < g.cell ix iy

instance (g : Grid) (ix iy : ℤ) : Decidable (is_wall g ix iy) := by
  unfold is_wall; infer_instance

/-- Depth written for a wall column (`cast_and_build_wall_batches`, line
`depth = clamp01(perp_wall_dist / FAR_PLANE)`). -/
def wallDepth (d : α) : α := clamp01 (d / FAR_PLANE)

/-- Depth written for a billboard sprite (`build_sprites_batch`, line
`depth = clamp01(trans_y / FAR_PLANE)`). -/
def spriteDepth (transY : α) : α := clamp01 (transY / FAR_PLANE)

/-- One wall-hit record produced for a screen column by the raycaster. -/
structure Hit (α : Type*) where
  perp : α
  texId : ℕ
  side : ℕ
  u : α
  depth : α
  hitX : ℤ
  hitY : ℤ
  deriving DecidableEq

/-- The `while hit == 0` DDA walk of `cast_and_build_wall_batches`:
step the axis with the smaller accumulated side distance, then report
(cell, side, material) when the walk leaves the map (material defaults
to 1) or finds a non-empty cell.  `fuel` bounds the number of
iterations; the Python loop is unbounded, and the termination theorem
shows the fuel used by `castColumn` is never exhausted for a camera
inside the map. -/
def ddaLoop (g : Grid) (ddx ddy : α) (stepX stepY : ℤ) :
    ℕ → α → α → ℤ → ℤ → Option (ℤ × ℤ × ℕ × ℕ)
  | 0, _, _, _, _ => none
  | fuel + 1, sdx, sdy, mx, my =>
    if sdx < sdy then
      if ¬ in_map g (mx + stepX) my then some (mx + stepX, my, 0, 1)
      else if 0 < g.cell (mx + stepX) my then
        some (mx + stepX, my, 0, g.cell (mx + stepX) my)
      else ddaLoop g ddx ddy stepX stepY fuel (sdx + ddx) sdy (mx + stepX) my
    else
      if ¬ in_map g mx (my + stepY) then some (mx, my + stepY, 1, 1)
      else if 0 < g.cell mx (my + stepY) then
        some (mx, my + stepY, 1, g.cell mx (my + stepY))
      else ddaLoop g ddx ddy stepX stepY fuel sdx (sdy + ddy) mx (my + stepY)

/-- The post-walk part of a column of `cast_and_build_wall_batches`:
perpendicular wall distance (side-corrected, with the `1e-9` guard),
fractional hit position, texture-U with the orientation flip, and the
normalised depth.  `res` is `(map_x, map_y, side, tex_id)` from the DDA
walk. -/
def finishHit (px py rdx rdy : α) (stepX stepY : ℤ)
    (res : ℤ × ℤ × ℕ × ℕ) : Hit α :=
  let perp : α :=
    if res.2.2.1 = 0 then
      ((res.1 : α) - px + (1 - (stepX : α)) / 2) /
        (if rdx ≠ 0 then rdx else 1 / 10 ^ 9)
    else
      ((res.2.1 : α) - py + (1 - (stepY : α)) / 2) /
        (if rdy ≠ 0 then rdy else 1 / 10 ^ 9)
  let wallX0 : α := if res.2.2.1 = 0 then py + perp * rdy else px + perp * rdx
  let wallX : α := wallX0 - (⌊wallX0⌋ : α)
  let u : α := if (res.2.2.1 = 0 ∧ 0 < rdx) ∨ (res.2.2.1 = 1 ∧ rdy < 0)
               then 1 - wallX else wallX
  ⟨perp, res.2.2.2, res.2.2.1, u, wallDepth perp, res.1, res.2.1⟩

/-- The per-column body of `cast_and_build_wall_batches`: ray setup,
DDA walk, then `finishHit`.  `none` means the DDA fuel ran out (shown
impossible for a camera inside the map). -/
def castColumn (g : Grid) (px py dirx diry planex planey : α) (x : ℕ) :
    Option (Hit α) :=
  let cameraX : α := 2 * (x : α) / (WIDTH : α) - 1
  let rdx := dirx + planex * cameraX
  let rdy := diry + planey * cameraX
  let mapX := trunc px
  let mapY := trunc py
  let ddx : α := if rdx ≠ 0 then |1 / rdx| else 10 ^ 30
  let ddy : α := if rdy ≠ 0 then |1 / rdy| else 10 ^ 30
  let stepX : ℤ := if rdx < 0 then -1 else 1
  let sdx : α := if rdx < 0 then (px - (mapX : α)) * ddx
                 else ((mapX : α) + 1 - px) * ddx
  let stepY : ℤ := if rdy < 0 then -1 else 1
  let sdy : α := if rdy < 0 then (py - (mapY : α)) * ddy
                 else ((mapY : α) + 1 - py) * ddy
  (ddaLoop g ddx ddy stepX stepY (g.w + g.h).toNat sdx sdy mapX mapY).map
    (finishHit px py rdx rdy stepX stepY)

/-- The camera basis: direction and view-plane vectors
(`dir_x, dir_y, plane_x, plane_y`). -/
structure Basis (α : Type*) where
  dirx : α
  diry : α
  planex : α
  planey : α

/-- The rotation step of `handle_input`: the same 2D rotation matrix
(with entries `cosr`/`sinr`) applied to the direction vector and to the
plane vector. -/
def rotateBasis (b : Basis α) (cosr sinr : α) : Basis α :=
  ⟨b.dirx * cosr - b.diry * sinr, b.dirx * sinr + b.diry * cosr,
   b.planex * cosr - b.planey * sinr, b.planex * sinr + b.planey * cosr⟩

/-- The basis determinant `dir_x * plane_y - dir_y * plane_x`. -/
def basisDet (b : Basis α) : α := b.dirx * b.planey - b.diry * b.planex

end Core

section Entities

variable {α : Type*} [LinearOrderedField α] [FloorRing α]

/-- A projectile (`class Bullet`): position, velocity, `alive`, `age`,
and the rising `height_param` (initialised at `0.2`, capped at `0.65`). -/
structure Bullet (α : Type*) where
  x : α
  y : α
  vx : α
  vy : α
  alive : Bool
  age : α
  height_param : α
  deriving DecidableEq

/-- `Bullet.update(dt)`: return unchanged when dead; otherwise integrate
the position by `velocity * dt`, kill the bullet (rejecting the whole
step) when the destination cell is a wall, else commit the move, age the
bullet and grow `height_param` by `0.35 * dt` up to the `0.65` cap. -/
def Bullet.update (g : Grid) (b : Bullet α) (dt : α) : Bullet α :=
  if b.alive = false then b
  else
    if is_wall g (trunc (b.x + b.vx * dt)) (trunc (b.y + b.vy * dt)) then
      { b with alive := false }
    else
      { b with x := b.x + b.vx * dt, y := b.y + b.vy * dt,
               age := b.age + dt,
               height_param := min (13 / 20) (b.height_param + (7 / 20) * dt) }

/-- An enemy (`class Enemy`): position, `alive`, hitbox radius `0.35`,
base speed `1.4`, effective speed, sprite `height_param` `0.5`, and
integer health. -/
structure Enemy (α : Type*) where
  x : α
  y : α
  alive : Bool
  radius : α
  base_speed : α
  speed : α
  height_param : α
  health : ℤ
  deriving DecidableEq

/-- `Enemy.take_damage(amount)`: subtract `amount` from health; when the
new health is `<= 0` set `alive = False` and return `True`, else return
`False`. -/
def Enemy.take_damage (e : Enemy α) (amount : ℤ) : Enemy α × Bool :=
  if e.health - amount ≤ 0 then
    ({ e with health := e.health - amount, alive := false }, true)
  else
    ({ e with health := e.health - amount }, false)

/-- `Enemy._try_move(nx, ny)`: axis-separated wall collision — apply the
X move if the destination column cell (at the current Y) is free, then
independently the Y move (against the possibly updated X). -/
noncomputable def Enemy.try_move (g : Grid) (e : Enemy ℝ) (nx ny : ℝ) : Enemy ℝ :=
  let e1 := if ¬ is_wall g (trunc nx) (trunc e.y) then { e with x := nx } else e
  if ¬ is_wall g (trunc e1.x) (trunc ny) then { e1 with y := ny } else e1

/-- `Enemy.update(dt)`: return unchanged when dead; chase the player at
`speed * dt` along the unit bearing (`math.hypot` distance plus the
`1e-9` guard) whenever the distance exceeds `0.75`. -/
noncomputable def Enemy.update (g : Grid) (px py : ℝ) (e : Enemy ℝ)
    (dt : ℝ) : Enemy ℝ :=
  if e.alive = false then e
  else
    let dx := px - e.x
    let dy := py - e.y
    let dist := Real.sqrt (dx ^ 2 + dy ^ 2) + 1 / 10 ^ 9
    if dist > 3 / 4 then
      e.try_move g (e.x + dx / dist * (e.speed * dt))
        (e.y + dy / dist * (e.speed * dt))
    else e

/-- An ammo box (`class AmmoBox`): position, `alive`, radius `0.35`,
`height_param` `0.3`, pickup distance `0.8`. -/
structure AmmoBox (α : Type*) where
  x : α
  y : α
  alive : Bool
  radius : α
  height_param : α
  pickup_distance : α
  deriving DecidableEq

/-- `AmmoBox.update(dt)`: return unchanged when dead; when the player is
within `pickup_distance` (`math.hypot`, boundary inclusive), set the
global ammo to 20 and mark the box not-alive.  The global `player_ammo`
is threaded explicitly. -/
noncomputable def AmmoBox.update (px py : ℝ) (ammo : ℤ) (box : AmmoBox ℝ)
    (_dt : ℝ) : AmmoBox ℝ × ℤ :=
  if box.alive = false then (box, ammo)
  else
    if Real.sqrt ((px - box.x) ^ 2 + (py - box.y) ^ 2) ≤
        box.pickup_distance then
      ({ box with alive := false }, 20)
    else (box, ammo)

/-- The inner combat scan of `main` for one (already stepped, alive)
bullet: walk the enemy list in order, skip dead enemies, and at the
first enemy whose squared distance is within `radius^2` apply
`take_damage(1)` and stop (the bullet is consumed: first component
`false`).  Returns whether the bullet stays alive, and the updated
enemy list. -/
noncomputable def scanEnemies (b : Bullet ℝ) : List (Enemy ℝ) → Bool × List (Enemy ℝ)
  | [] => (true, [])
  | e :: rest =>
    if e.alive = false then
      ((scanEnemies b rest).1, e :: (scanEnemies b rest).2)
    else
      if (e.x - b.x) * (e.x - b.x) + (e.y - b.y) * (e.y - b.y) ≤
          e.radius * e.radius then
        (false, (e.take_damage 1).1 :: rest)
      else
        ((scanEnemies b rest).1, e :: (scanEnemies b rest).2)

/-- The bullet phase of `main`'s tick: each bullet is stepped with
`Bullet.update`, and, when still alive, resolved against the (shared,
in-place mutated) enemy list by `scanEnemies`. -/
noncomputable def stepBullets (g : Grid) (dt : ℝ) :
    List (Bullet ℝ) → List (Enemy ℝ) → List (Bullet ℝ) × List (Enemy ℝ)
  | [], es => ([], es)
  | b :: bs, es =>
    if (b.update g dt).alive = false then
      ((b.update g dt) :: (stepBullets g dt bs es).1,
       (stepBullets g dt bs es).2)
    else
      if (scanEnemies (b.update g dt) es).1 = false then
        ({ b.update g dt with alive := false } ::
           (stepBullets g dt bs (scanEnemies (b.update g dt) es).2).1,
         (stepBullets g dt bs (scanEnemies (b.update g dt) es).2).2)
      else
        ((b.update g dt) ::
           (stepBullets g dt bs (scanEnemies (b.update g dt) es).2).1,
         (stepBullets g dt bs (scanEnemies (b.update g dt) es).2).2)

/-- The ammo-box phase of `main`'s tick: update the boxes in list order,
threading the global ammo through each `AmmoBox.update` call. -/
noncomputable def updateBoxes (px py : ℝ) (dt : ℝ) :
    List (AmmoBox ℝ) → ℤ → List (AmmoBox ℝ) × ℤ
  | [], ammo => ([], ammo)
  | box :: rest, ammo =>
    ((AmmoBox.update px py ammo box dt).1 ::
       (updateBoxes px py dt rest (AmmoBox.update px py ammo box dt).2).1,
     (updateBoxes px py dt rest (AmmoBox.update px py ammo box dt).2).2)

/-- The entity phase of one iteration of `main`'s frame loop, from the
bullet updates to the cleanup filters (the phase between enemy spawning
and batch building): bullet step + combat resolution, bullet filter,
enemy step, ammo-box step, ammo-box filter.  The enemy list is not
filtered anywhere in the loop. -/
noncomputable def tickEntities (g : Grid) (px py dt : ℝ)
    (bullets : List (Bullet ℝ)) (enemies : List (Enemy ℝ))
    (boxes : List (AmmoBox ℝ)) (ammo : ℤ) :
    List (Bullet ℝ) × List (Enemy ℝ) × List (AmmoBox ℝ) × ℤ :=
  let bs := stepBullets g dt bullets enemies
  let bullets1 := bs.1.filter (fun b => b.alive)
  let enemies1 := bs.2.map (fun e => Enemy.update g px py e dt)
  let boxres := updateBoxes px py dt boxes ammo
  let boxes1 := boxres.1.filter (fun box => box.alive)
  (bullets1, enemies1, boxes1, boxres.2)

end Entities

/-- The wave director state (`class WaveManager.__init__`). -/
structure WaveManager where
  current_wave : ℤ
  enemies_spawned : ℤ
  wave_in_progress : Bool
  between_waves : Bool
  wave_start_time : ℚ
  wave_countdown : ℚ
  countdown_duration : ℚ

/-- `WaveManager.get_enemies_for_wave`: `3 + (current_wave - 1) * 2`. -/
def WaveManager.get_enemies_for_wave (m : WaveManager) : ℤ :=
  3 + (m.current_wave - 1) * 2

/-- `WaveManager.get_enemy_health`: `1 + (current_wave - 1) // 3`
(Python floor division; Lean's `Int` division is also floor division
for a positive divisor). -/
def WaveManager.get_enemy_health (m : WaveManager) : ℤ :=
  1 + (m.current_wave - 1) / 3

/-- `WaveManager.get_enemy_speed_multiplier`:
`1.0 + min(1.0, (current_wave - 1) * 0.1)`. -/
def WaveManager.get_enemy_speed_multiplier (m : WaveManager) : ℚ :=
  1 + min 1 (((m.current_wave : ℚ) - 1) * (1 / 10))

/-- The spec's per-wave enemy count formula: `3 + (wave-1)·2`. -/
def specEnemyCount (w : ℤ) : ℤ := 3 + (w - 1) * 2

/-- The spec's per-wave enemy health formula: `1 + floor((wave-1)/3)`
with a true (real) floor of the division. -/
def specEnemyHealth (w : ℤ) : ℤ := 1 + ⌊((w : ℚ) - 1) / 3⌋

/-- The spec's per-wave speed multiplier formula:
`1 + min(1, (wave-1)·0.1)`. -/
def specSpeedMultiplier (w : ℤ) : ℚ := 1 + min 1 (((w : ℚ) - 1) * (1 / 10))

/-- The 5×5 grid of the end-to-end scenario: border cells of material 1,
empty interior. -/
def grid5 : Grid :=
  Grid.ofList
    [[1, 1, 1, 1, 1],
     [1, 0, 0, 0, 1],
     [1, 0, 0, 0, 1],
     [1, 0, 0, 0, 1],
     [1, 1, 1, 1, 1]]

/-- Number of DDA steps available on one axis before the walk leaves
`[0, bound)`, for a fixed step direction `step ∈ {1, -1}`. -/
def axisFuel (bound pos step : ℤ) : ℤ :=
  if step = 1 then bound - pos else pos + 1

/-- The map has opaque borders: every border cell holds a non-zero
material id. -/
def opaqueBorder (g : Grid) : Prop :=
  ∀ ix iy : ℤ, in_map g ix iy →
    (ix = 0 ∨ iy = 0 ∨ ix = g.w - 1 ∨ iy = g.h - 1) → 0 < g.cell ix iy

/-- Field of view `FOV = 66 * pi / 180` from the config block. -/
noncomputable def FOV : ℝ := 66 * Real.pi / 180

/-- View-plane length `PLANE_LEN = tan(FOV / 2)` from the config block
(the standard view plane is `(0, PLANE_LEN)`). -/
noncomputable def PLANE_LEN : ℝ := Real.tan (FOV / 2)

section Lemmas

variable {α : Type*} [LinearOrderedField α]

lemma clamp01_mono {a b : α} (h : a ≤ b) : clamp01 a ≤ clamp01 b := by
  unfold clamp01
  split_ifs <;> linarith

end Lemmas

section DDATermination

variable {α : Type*} [LinearOrderedField α] [FloorRing α]

lemma trunc_eq (q : α) (z : ℤ) (h0 : 0 ≤ q) (h1 : (z : α) ≤ q)
    (h2 : q < z + 1) : trunc q = z := by
  unfold trunc
  rw [if_pos h0, Int.floor_eq_iff]
  exact ⟨h1, h2⟩

omit [FloorRing α] in
/-- The DDA walk, run with enough fuel from a cell inside the map,
returns a hit whose material id is positive, and the id defaults to 1
when the hit cell is outside the map. -/
lemma ddaLoop_succeeds (g : Grid) (ddx ddy : α) (stepX stepY : ℤ)
    (hsx : stepX = 1 ∨ stepX = -1) (hsy : stepY = 1 ∨ stepY = -1)
    (fuel : ℕ) :
    ∀ (sdx sdy : α) (mx my : ℤ), in_map g mx my →
      axisFuel g.w mx stepX + axisFuel g.h my stepY ≤ (fuel : ℤ) →
      ∃ q : ℤ × ℤ × ℕ × ℕ,
        ddaLoop g ddx ddy stepX stepY fuel sdx sdy mx my = some q ∧
        0 < q.2.2.2 ∧ (¬ in_map g q.1 q.2.1 → q.2.2.2 = 1) := by
  induction fuel with
  | zero =>
    intro sdx sdy mx my hin hfuel
    exfalso
    obtain ⟨h1, h2, h3, h4⟩ := hin
    unfold axisFuel at hfuel
    rcases hsx with hx1 | hx1 <;> rcases hsy with hy1 | hy1 <;>
      rw [hx1, hy1] at hfuel <;> simp at hfuel <;> omega
  | succ n ih =>
    intro sdx sdy mx my hin hfuel
    unfold ddaLoop
    rcases lt_or_ge sdx sdy with hlt | hge
    · rw [if_pos hlt]
      by_cases hout : in_map g (mx + stepX) my
      · rw [if_neg (not_not_intro hout)]
        by_cases hc : 0 < g.cell (mx + stepX) my
        · rw [if_pos hc]
          exact ⟨(mx + stepX, my, 0, g.cell (mx + stepX) my), rfl, hc,
            fun hn => (hn hout).elim⟩
        · rw [if_neg hc]
          refine ih (sdx + ddx) sdy (mx + stepX) my hout ?_
          unfold axisFuel at hfuel ⊢
          rcases hsx with hx1 | hx1 <;> rcases hsy with hy1 | hy1 <;>
            simp only [hx1, hy1] at hfuel ⊢ <;> simp at hfuel ⊢ <;> omega
      · rw [if_pos hout]
        exact ⟨(mx + stepX, my, 0, 1), rfl, one_pos, fun _ => rfl⟩
    · rw [if_neg (not_lt.mpr hge)]
      by_cases hout : in_map g mx (my + stepY)
      · rw [if_neg (not_not_intro hout)]
        by_cases hc : 0 < g.cell mx (my + stepY)
        · rw [if_pos hc]
          exact ⟨(mx, my + stepY, 1, g.cell mx (my + stepY)), rfl, hc,
            fun hn => (hn hout).elim⟩
        · rw [if_neg hc]
          refine ih sdx (sdy + ddy) mx (my + stepY) hout ?_
          unfold axisFuel at hfuel ⊢
          rcases hsx with hx1 | hx1 <;> rcases hsy with hy1 | hy1 <;>
            simp only [hx1, hy1] at hfuel ⊢ <;> simp at hfuel ⊢ <;> omega
      · rw [if_pos hout]
        exact ⟨(mx, my + stepY, 1, 1), rfl, one_pos, fun _ => rfl⟩

/-- `castColumn` for a camera strictly inside the map always produces a
hit record with a positive material id, defaulting to 1 when the walk
left the map. -/
lemma castColumn_spec (g : Grid) (px py dirx diry planex planey : α)
    (x : ℕ) (hpx0 : 0 ≤ px) (hpxw : px < (g.w : α))
    (hpy0 : 0 ≤ py) (hpyh : py < (g.h : α)) :
    ∃ r : Hit α, castColumn g px py dirx diry planex planey x = some r ∧
      0 < r.texId ∧ (¬ in_map g r.hitX r.hitY → r.texId = 1) := by
  have hmx0 : 0 ≤ trunc px := by
    unfold trunc
    rw [if_pos hpx0]
    exact Int.floor_nonneg.mpr hpx0
  have hmxw : trunc px < g.w := by
    unfold trunc
    rw [if_pos hpx0]
    exact Int.floor_lt.mpr hpxw
  have hmy0 : 0 ≤ trunc py := by
    unfold trunc
    rw [if_pos hpy0]
    exact Int.floor_nonneg.mpr hpy0
  have hmyh : trunc py < g.h := by
    unfold trunc
    rw [if_pos hpy0]
    exact Int.floor_lt.mpr hpyh
  simp only [castColumn]
  set rdx := dirx + planex * (2 * (x : α) / (WIDTH : α) - 1) with hrdx
  set rdy := diry + planey * (2 * (x : α) / (WIDTH : α) - 1) with hrdy
  set ddx := if rdx ≠ 0 then |1 / rdx| else (10 : α) ^ 30 with hddx
  set ddy := if rdy ≠ 0 then |1 / rdy| else (10 : α) ^ 30 with hddy
  set stepX := if rdx < 0 then (-1 : ℤ) else 1 with hstepX
  set stepY := if rdy < 0 then (-1 : ℤ) else 1 with hstepY
  set sdx := if rdx < 0 then (px - (trunc px : α)) * ddx
             else ((trunc px : α) + 1 - px) * ddx with hsdx
  set sdy := if rdy < 0 then (py - (trunc py : α)) * ddy
             else ((trunc py : α) + 1 - py) * ddy with hsdy
  have hsx : stepX = 1 ∨ stepX = -1 := by
    rw [hstepX]
    split_ifs <;> simp
  have hsy : stepY = 1 ∨ stepY = -1 := by
    rw [hstepY]
    split_ifs <;> simp
  have hfuel : axisFuel g.w (trunc px) stepX + axisFuel g.h (trunc py) stepY
      ≤ (((g.w + g.h).toNat : ℕ) : ℤ) := by
    rw [Int.toNat_of_nonneg (by omega)]
    unfold axisFuel
    rcases hsx with h1 | h1 <;> rcases hsy with h2 | h2 <;>
      rw [h1, h2] <;> simp <;> omega
  obtain ⟨q, hq, hqt, hqi⟩ := ddaLoop_succeeds g ddx ddy stepX stepY hsx hsy
    ((g.w + g.h).toNat) sdx sdy (trunc px) (trunc py)
    ⟨hmx0, hmxw, hmy0, hmyh⟩ hfuel
  refine ⟨finishHit px py rdx rdy stepX stepY q, ?_, ?_, ?_⟩
  · rw [hq]
    rfl
  · simpa [finishHit] using hqt
  · simpa [finishHit] using hqi

end DDATermination

lemma grid5_opaqueBorder : opaqueBorder grid5 := by
  intro ix iy hin
  obtain ⟨h1, h2, h3, h4⟩ := hin
  have hw : grid5.w = 5 := by decide
  have hh : grid5.h = 5 := by decide
  rw [hw] at h2
  rw [hh] at h4
  interval_cases ix <;> interval_cases iy <;> decide

/-- C1: the Raycaster (`cast_and_build_wall_batches`) and the Billboard
Projector (`build_sprites_batch`) encode depth by the same formula
`clamp(d / FAR_PLANE, 0, 1)` with `FAR_PLANE = 100`: equal forward
distances give equal depth values, and depth is monotone non-decreasing
in forward distance. -/
theorem c1_depth_consistency {α : Type*} [LinearOrderedField α]
    [FloorRing α] :
    (∀ d : α, wallDepth d = spriteDepth d) ∧
    (∀ dn df : α, dn ≤ df → wallDepth dn ≤ wallDepth df) := by
  constructor
  · intro d; rfl
  · intro dn df h
    unfold wallDepth
    exact clamp01_mono ((div_le_div_iff_of_pos_right (by norm_num [FAR_PLANE] :
      (0 : α) < FAR_PLANE)).mpr h)

/-- Witness for C1 at concrete distances 3 and 7 over ℚ. -/
theorem c1_depth_consistency_witness :
    (3 : ℚ) ≤ 7 ∧ wallDepth (3 : ℚ) ≤ wallDepth 7 ∧
    wallDepth (3 : ℚ) = spriteDepth 3 :=
  ⟨by norm_num, c1_depth_consistency.2 3 7 (by norm_num),
   c1_depth_consistency.1 3⟩

/-- C4: the rotation step of `handle_input` applies the same 2D rotation
matrix (cos/sin of the rotation angle) to the direction and the plane
vector, and the magnitude of the basis determinant
`dir_x·plane_y - dir_y·plane_x` is unchanged by the rotation. -/
theorem c4_rotation_preserves_det (b : Basis ℝ) (rot : ℝ) :
    |basisDet (rotateBasis b (Real.cos rot) (Real.sin rot))| =
      |basisDet b| := by
  have h : basisDet (rotateBasis b (Real.cos rot) (Real.sin rot)) =
      basisDet b * (Real.sin rot ^ 2 + Real.cos rot ^ 2) := by
    unfold basisDet rotateBasis
    ring
  rw [h, Real.sin_sq_add_cos_sq, mul_one]

/-- C5: `Enemy.take_damage(a)` on an enemy with health `h > 0` decreases
health by exactly `a`, returns `True` iff `h - a ≤ 0`, and sets `alive`
to `False` exactly when `h - a ≤ 0` (otherwise `alive` is unchanged). -/
theorem c5_take_damage (e : Enemy ℝ) (a : ℤ) (_hpos : 0 < e.health) :
    (e.take_damage a).1.health = e.health - a ∧
    ((e.take_damage a).2 = true ↔ e.health - a ≤ 0) ∧
    (e.take_damage a).1.alive =
      (if e.health - a ≤ 0 then false else e.alive) := by
  unfold Enemy.take_damage
  split_ifs with hd <;> simp [hd]

/-- Witness for C5: an enemy with health 3 takes damage 3 (dies) — the
hypotheses of `c5_take_damage` hold at this input. -/
theorem c5_take_damage_witness :
    0 < (⟨0, 0, true, 7/20, 7/5, 7/5, 1/2, 3⟩ : Enemy ℝ).health ∧
    (((⟨0, 0, true, 7/20, 7/5, 7/5, 1/2, 3⟩ : Enemy ℝ).take_damage
        3).1.health = 3 - 3 ∧
      (((⟨0, 0, true, 7/20, 7/5, 7/5, 1/2, 3⟩ : Enemy ℝ).take_damage
          3).2 = true ↔ (3 : ℤ) - 3 ≤ 0) ∧
      ((⟨0, 0, true, 7/20, 7/5, 7/5, 1/2, 3⟩ : Enemy ℝ).take_damage
          3).1.alive = (if (3 : ℤ) - 3 ≤ 0 then false else true)) :=
  ⟨by decide, c5_take_damage ⟨0, 0, true, 7/20, 7/5, 7/5, 1/2, 3⟩ 3
    (by decide)⟩

/-- C9: for every wave number `w ≥ 1`, the wave director's tuning values
agree with the spec's pure formulas: enemy count `3 + (w-1)·2`, enemy
health `1 + floor((w-1)/3)`, speed multiplier `1 + min(1, (w-1)·0.1)`. -/
theorem c9_wave_tuning (m : WaveManager) (_h : 1 ≤ m.current_wave) :
    m.get_enemies_for_wave = specEnemyCount m.current_wave ∧
    m.get_enemy_health = specEnemyHealth m.current_wave ∧
    m.get_enemy_speed_multiplier = specSpeedMultiplier m.current_wave := by
  refine ⟨rfl, ?_, rfl⟩
  unfold WaveManager.get_enemy_health specEnemyHealth
  have hcast : ((m.current_wave : ℚ) - 1) / 3 =
      ((m.current_wave - 1 : ℤ) : ℚ) / ((3 : ℕ) : ℚ) := by
    push_cast
    ring
  rw [hcast, Rat.floor_intCast_div_natCast]
  norm_num

/-- Witness for C9 at wave 5 (count 11, health 2, speed 1.4). -/
theorem c9_wave_tuning_witness :
    1 ≤ (⟨5, 0, true, false, 0, 0, 5⟩ : WaveManager).current_wave ∧
    ((⟨5, 0, true, false, 0, 0, 5⟩ : WaveManager).get_enemies_for_wave =
        specEnemyCount 5 ∧
      (⟨5, 0, true, false, 0, 0, 5⟩ : WaveManager).get_enemy_health =
        specEnemyHealth 5 ∧
      (⟨5, 0, true, false, 0, 0, 5⟩ : WaveManager).get_enemy_speed_multiplier
        = specSpeedMultiplier 5) :=
  ⟨by decide, c9_wave_tuning ⟨5, 0, true, false, 0, 0, 5⟩ (by decide)⟩

/-- C10: `update(dt)` on a dead `Bullet`, `Enemy` or `AmmoBox` leaves the
entity unchanged in every field and does not modify the player's ammo. -/
theorem c10_dead_update_noop :
    (∀ (g : Grid) (b : Bullet ℝ) (dt : ℝ), b.alive = false →
      b.update g dt = b) ∧
    (∀ (g : Grid) (px py : ℝ) (e : Enemy ℝ) (dt : ℝ), e.alive = false →
      Enemy.update g px py e dt = e) ∧
    (∀ (px py : ℝ) (ammo : ℤ) (box : AmmoBox ℝ) (dt : ℝ),
      box.alive = false → AmmoBox.update px py ammo box dt = (box, ammo)) := by
  refine ⟨?_, ?_, ?_⟩ <;> intros <;>
    simp [Bullet.update, Enemy.update, AmmoBox.update, *]

/-- Witness for C10: concrete dead bullet, enemy and ammo box are left
unchanged by their `update`. -/
theorem c10_dead_update_noop_witness :
    (⟨0, 0, 0, 0, false, 0, 1/5⟩ : Bullet ℝ).alive = false ∧
    Bullet.update grid5 (⟨0, 0, 0, 0, false, 0, 1/5⟩ : Bullet ℝ) 1 =
      ⟨0, 0, 0, 0, false, 0, 1/5⟩ ∧
    Enemy.update grid5 0 0 ⟨0, 0, false, 7/20, 7/5, 7/5, 1/2, 1⟩ 1 =
      ⟨0, 0, false, 7/20, 7/5, 7/5, 1/2, 1⟩ ∧
    AmmoBox.update 0 0 5 ⟨0, 0, false, 7/20, 3/10, 4/5⟩ 1 =
      (⟨0, 0, false, 7/20, 3/10, 4/5⟩, 5) :=
  ⟨rfl, c10_dead_update_noop.1 grid5 _ 1 rfl,
   c10_dead_update_noop.2.1 grid5 0 0 _ 1 rfl,
   c10_dead_update_noop.2.2 0 0 5 _ 1 rfl⟩

/-- C2: for every camera position strictly inside a grid map whose
border cells are all non-zero and every screen column, the DDA loop of
`cast_and_build_wall_batches` terminates and reports a wall hit with
material id > 0; a walk that left the map bounds reports the default
material id 1. -/
theorem c2_dda_terminates {α : Type*} [LinearOrderedField α] [FloorRing α]
    (g : Grid) (px py dirx diry planex planey : α) (x : ℕ)
    (_hx : x < WIDTH) (hpx0 : 0 ≤ px) (hpxw : px < (g.w : α))
    (hpy0 : 0 ≤ py) (hpyh : py < (g.h : α)) (_hb : opaqueBorder g) :
    0 < ((castColumn g px py dirx diry planex planey x).elim 0 Hit.texId) ∧
    ((castColumn g px py dirx diry planex planey x).elim True
      (fun r => ¬ in_map g r.hitX r.hitY → r.texId = 1)) := by
  obtain ⟨r, hr, h1, h2⟩ := castColumn_spec g px py dirx diry planex planey x
    hpx0 hpxw hpy0 hpyh
  rw [hr]
  exact ⟨h1, h2⟩

/-- Witness for C2: the hypotheses hold for the bordered 5×5 map with
the camera at (2.5, 2.5) and the centre column, and the conclusion
follows from `c2_dda_terminates` there. -/
theorem c2_dda_terminates_witness :
    ((512 : ℕ) < WIDTH ∧ (0 : ℚ) ≤ 5/2 ∧ ((5 : ℚ)/2) < (grid5.w : ℚ) ∧
      opaqueBorder grid5) ∧
    0 < ((castColumn grid5 ((5 : ℚ)/2) (5/2) 1 0 0 (2/3) 512).elim 0
      Hit.texId) ∧
    ((castColumn grid5 ((5 : ℚ)/2) (5/2) 1 0 0 (2/3) 512).elim True
      (fun r => ¬ in_map grid5 r.hitX r.hitY → r.texId = 1)) :=
  ⟨⟨by decide, by norm_num, by norm_num [grid5, Grid.ofList],
      grid5_opaqueBorder⟩,
    c2_dda_terminates grid5 ((5 : ℚ)/2) (5/2) 1 0 0 (2/3) 512 (by decide)
      (by norm_num) (by norm_num [grid5, Grid.ofList]) (by norm_num)
      (by norm_num [grid5, Grid.ofList]) grid5_opaqueBorder⟩

/-- C6: for every alive bullet and every `dt`, `Bullet.update` rejects
the whole step (killing the bullet, leaving position, age and height
parameter unchanged) when the destination cell is a wall, and otherwise
commits exactly the destination position and grows the height parameter
toward its 0.65 cap; in particular the scenario bullet at (2.5, 2.5)
with velocity (10, 0) and dt = 0.2, whose destination cell (4, 2) is a
wall of the bordered 5×5 map, is not-alive after the single step and
has not advanced. -/
theorem c6_bullet_update {α : Type*} [LinearOrderedField α] [FloorRing α]
    (g : Grid) (b : Bullet α) (dt : α) (halive : b.alive = true) :
    (is_wall g (trunc (b.x + b.vx * dt)) (trunc (b.y + b.vy * dt)) →
      b.update g dt = { b with alive := false }) ∧
    (¬ is_wall g (trunc (b.x + b.vx * dt)) (trunc (b.y + b.vy * dt)) →
      b.update g dt =
        { b with x := b.x + b.vx * dt, y := b.y + b.vy * dt,
                 age := b.age + dt,
                 height_param :=
                   min (13/20) (b.height_param + (7/20) * dt) }) ∧
    Bullet.update grid5 (⟨5/2, 5/2, 10, 0, true, 0, 1/5⟩ : Bullet α)
      (1/5) = ⟨5/2, 5/2, 10, 0, false, 0, 1/5⟩ := by
  refine ⟨fun hw => ?_, fun hw => ?_, ?_⟩
  · unfold Bullet.update
    rw [halive]
    simp [hw]
  · unfold Bullet.update
    rw [halive]
    simp [hw]
  · have h4 : trunc ((9 : α)/2) = 4 :=
      trunc_eq _ 4 (by norm_num) (by norm_num) (by norm_num)
    have h2 : trunc ((5 : α)/2) = 2 :=
      trunc_eq _ 2 (by norm_num) (by norm_num) (by norm_num)
    unfold Bullet.update
    norm_num [h4, h2]
    decide

/-- Witness for C6: the scenario bullet is alive, and the theorem's
scenario conjunct applies to it over ℚ. -/
theorem c6_bullet_update_witness :
    (⟨5/2, 5/2, 10, 0, true, 0, 1/5⟩ : Bullet ℚ).alive = true ∧
    Bullet.update grid5 (⟨5/2, 5/2, 10, 0, true, 0, 1/5⟩ : Bullet ℚ)
      (1/5) = ⟨5/2, 5/2, 10, 0, false, 0, 1/5⟩ :=
  ⟨rfl, (c6_bullet_update grid5 ⟨5/2, 5/2, 10, 0, true, 0, 1/5⟩ (1/5)
    rfl).2.2⟩

/-- The DDA walk of the centre-column scenario: from cell (2, 2) of the
bordered 5×5 map, stepping +x while the x side-distance stays smaller,
the walk hits the east border cell (4, 2) with material 1 on an
x-facing side. -/
lemma dda_grid5_center {α : Type*} [LinearOrderedField α]
    (ddx ddy sdx sdy : α) (h1 : sdx < sdy) (h2 : sdx + ddx < sdy) :
    ddaLoop grid5 ddx ddy 1 1 10 sdx sdy 2 2 = some (4, 2, 0, 1) := by
  show ddaLoop grid5 ddx ddy 1 1 (9 + 1) sdx sdy 2 2 = _
  rw [ddaLoop]
  rw [if_pos h1]
  rw [if_neg (not_not_intro (by decide : in_map grid5 (2 + 1) 2))]
  rw [if_neg (by decide : ¬ (0 < grid5.cell (2 + 1) 2))]
  show ddaLoop grid5 ddx ddy 1 1 (8 + 1) (sdx + ddx) sdy (2 + 1) 2 = _
  rw [ddaLoop]
  rw [if_pos h2]
  rw [if_neg (not_not_intro (by decide : in_map grid5 (2 + 1 + 1) 2))]
  rw [if_pos (by decide : 0 < grid5.cell (2 + 1 + 1) 2)]
  decide

/-- Casting the centre screen column (`cameraX = 0`) from (2.5, 2.5)
facing +x in the bordered 5×5 map hits the east border wall cell (4, 2)
at perpendicular distance 1.5, texture-U 0.5, depth 1.5/100, material 1
— for any view-plane y component. -/
lemma castColumn_center_grid5 {α : Type*} [LinearOrderedField α]
    [FloorRing α] (p : α) :
    castColumn grid5 (5/2) (5/2) 1 0 0 p 512 =
      some ⟨3/2, 1, 0, 1/2, 3/200, 4, 2⟩ := by
  have htr : trunc ((5 : α)/2) = 2 :=
    trunc_eq _ 2 (by norm_num) (by norm_num) (by norm_num)
  have hfuel : (grid5.w + grid5.h).toNat = 10 := by decide
  have hfl : ⌊(5 : α)/2⌋ = 2 := by
    rw [Int.floor_eq_iff]
    constructor <;> norm_num
  simp only [castColumn]
  norm_num [WIDTH, htr, hfuel]
  rw [dda_grid5_center _ _ _ _ (by norm_num) (by norm_num)]
  have hfr : Int.fract ((5 : α)/2) = 1/2 := by
    rw [Int.fract, hfl]
    norm_num
  norm_num [finishHit, wallDepth, clamp01, FAR_PLANE, hfl, hfr]
  exact ⟨4, 2, 0, 1, ⟨rfl, rfl, rfl, rfl⟩, by norm_num, rfl, rfl,
    by norm_num [hfr], by norm_num, rfl, rfl⟩

/-- C3 counterexample: in the bordered 5×5 map with the camera at
(2.5, 2.5), direction (1, 0) and the standard view plane, the centre
column reports perpendicular distance 1.5 — which is not within
floating-point tolerance of the claimed 2.0. -/
theorem c3_center_column_counterexample :
    (castColumn grid5 ((5 : ℝ)/2) (5/2) 1 0 0 PLANE_LEN 512).map Hit.perp
      = some (3/2) ∧
    ¬ |(3 : ℝ)/2 - 2| ≤ 1/100 := by
  constructor
  · rw [castColumn_center_grid5 PLANE_LEN]
    rfl
  · have habs : |(3 : ℝ)/2 - 2| = 1/2 := by
      rw [show (3 : ℝ)/2 - 2 = -(1/2) by norm_num, abs_neg,
        abs_of_nonneg (by norm_num : (0 : ℝ) ≤ 1/2)]
    rw [habs]
    norm_num

/-- C3 amended: in the 5×5 bordered map with the camera at (2.5, 2.5),
direction (1, 0) and any view-plane y component (in particular the
standard one), the centre column reports the east border wall cell
(4, 2) at perpendicular distance 1.5 with the border's material id 1. -/
theorem c3_center_column_amended {α : Type*} [LinearOrderedField α]
    [FloorRing α] (planey : α) :
    castColumn grid5 (5/2) (5/2) 1 0 0 planey 512 =
      some ⟨3/2, 1, 0, 1/2, 3/200, 4, 2⟩ :=
  castColumn_center_grid5 planey

/-- The DDA walk of the corner-hit scenario: from cell (1, 2) of the
bordered 5×5 map, stepping +x three times to the east border cell
(4, 2). -/
lemma dda_grid5_corner {α : Type*} [LinearOrderedField α]
    (ddx ddy sdx sdy : α) (h1 : sdx < sdy) (h2 : sdx + ddx < sdy)
    (h3 : sdx + ddx + ddx < sdy) :
    ddaLoop grid5 ddx ddy 1 1 10 sdx sdy 1 2 = some (4, 2, 0, 1) := by
  show ddaLoop grid5 ddx ddy 1 1 (9 + 1) sdx sdy 1 2 = _
  rw [ddaLoop]
  rw [if_pos h1]
  rw [if_neg (not_not_intro (by decide : in_map grid5 (1 + 1) 2))]
  rw [if_neg (by decide : ¬ (0 < grid5.cell (1 + 1) 2))]
  show ddaLoop grid5 ddx ddy 1 1 (8 + 1) (sdx + ddx) sdy (1 + 1) 2 = _
  rw [ddaLoop]
  rw [if_pos h2]
  rw [if_neg (not_not_intro (by decide : in_map grid5 (1 + 1 + 1) 2))]
  rw [if_neg (by decide : ¬ (0 < grid5.cell (1 + 1 + 1) 2))]
  show ddaLoop grid5 ddx ddy 1 1 (7 + 1) (sdx + ddx + ddx) sdy (1 + 1 + 1) 2
    = _
  rw [ddaLoop]
  rw [if_pos h3]
  rw [if_neg (not_not_intro (by decide : in_map grid5 (1 + 1 + 1 + 1) 2))]
  rw [if_pos (by decide : 0 < grid5.cell (1 + 1 + 1 + 1) 2)]
  decide

/-- Casting the centre column from (1.5, 2.0) facing +x in the bordered
5×5 map: the hit position along the east wall is exactly the corner
(fractional part 0), and the orientation flip produces a texture-U of
exactly 1. -/
lemma castColumn_corner_grid5 {α : Type*} [LinearOrderedField α]
    [FloorRing α] (p : α) :
    castColumn grid5 (3/2) 2 1 0 0 p 512 =
      some ⟨5/2, 1, 0, 1, 1/40, 4, 2⟩ := by
  have htrx : trunc ((3 : α)/2) = 1 :=
    trunc_eq _ 1 (by norm_num) (by norm_num) (by norm_num)
  have htry : trunc ((2 : α)) = 2 :=
    trunc_eq _ 2 (by norm_num) (by norm_num) (by norm_num)
  have hfuel : (grid5.w + grid5.h).toNat = 10 := by decide
  have hfl : ⌊(2 : α)⌋ = 2 := by
    rw [Int.floor_eq_iff]
    constructor <;> norm_num
  have hfr : Int.fract (2 : α) = 0 := by
    rw [Int.fract, hfl]
    norm_num
  simp only [castColumn]
  norm_num [WIDTH, htrx, htry, hfuel]
  rw [dda_grid5_corner _ _ _ _ (by norm_num) (by norm_num) (by norm_num)]
  norm_num [finishHit, wallDepth, clamp01, FAR_PLANE, hfl, hfr]
  exact ⟨4, 2, 0, 1, ⟨rfl, rfl, rfl, rfl⟩, by norm_num, rfl, rfl,
    by norm_num [hfr], by norm_num, rfl, rfl⟩

lemma u_flip_bounds {α : Type*} [LinearOrderedField α] [FloorRing α]
    (w : α) (flip : Prop) [Decidable flip] :
    0 ≤ (if flip then 1 - (w - (⌊w⌋ : α)) else w - (⌊w⌋ : α)) ∧
    (if flip then 1 - (w - (⌊w⌋ : α)) else w - (⌊w⌋ : α)) ≤ 1 := by
  have h1 := Int.floor_le w
  have h2 := Int.lt_floor_add_one w
  split_ifs <;> constructor <;> push_cast at h1 h2 <;> linarith

lemma finishHit_u_bounds {α : Type*} [LinearOrderedField α] [FloorRing α]
    (px py rdx rdy : α) (sx sy : ℤ) (res : ℤ × ℤ × ℕ × ℕ) :
    0 ≤ (finishHit px py rdx rdy sx sy res).u ∧
    (finishHit px py rdx rdy sx sy res).u ≤ 1 := by
  simp only [finishHit]
  exact u_flip_bounds _ _

/-- C7 counterexample: the texture-U produced for the centre column from
(1.5, 2.0) in the bordered 5×5 map is exactly 1, which is not in
`[0, 1)`. -/
theorem c7_texcoord_counterexample :
    (castColumn grid5 ((3 : ℚ)/2) 2 1 0 0 (2/3) 512).map Hit.u = some 1 ∧
    ¬ ((1 : ℚ) < 1) := by
  constructor
  · rw [castColumn_corner_grid5 ((2 : ℚ)/3)]
    rfl
  · norm_num

/-- C7 amended: for every screen column the texture-U produced by the
raycaster lies in `[0, 1]` (it equals 1 exactly at corner hits where the
fractional hit position is 0 and the orientation flip applies): it is
the fractional part of the hit position, replaced by `1 - frac` when
`(side = 0 and ray_dir_x > 0) or (side = 1 and ray_dir_y < 0)`. -/
theorem c7_texcoord_amended {α : Type*} [LinearOrderedField α]
    [FloorRing α] (g : Grid) (px py dirx diry planex planey : α) (x : ℕ)
    (r : Hit α)
    (hr : castColumn g px py dirx diry planex planey x = some r) :
    0 ≤ r.u ∧ r.u ≤ 1 := by
  simp only [castColumn] at hr
  rcases Option.map_eq_some'.mp hr with ⟨q, _, hfq⟩
  rw [← hfq]
  exact finishHit_u_bounds _ _ _ _ _ _ q

/-- Witness for C7: the centre-column cast of the C3 scenario produces a
hit record, and its texture-U 0.5 is within `[0, 1]`. -/
theorem c7_texcoord_amended_witness :
    castColumn grid5 ((5 : ℚ)/2) (5/2) 1 0 0 (2/3) 512 =
      some ⟨3/2, 1, 0, 1/2, 3/200, 4, 2⟩ ∧
    0 ≤ (⟨3/2, 1, 0, 1/2, 3/200, 4, 2⟩ : Hit ℚ).u ∧
    (⟨3/2, 1, 0, 1/2, 3/200, 4, 2⟩ : Hit ℚ).u ≤ 1 :=
  ⟨castColumn_center_grid5 (2/3),
    c7_texcoord_amended grid5 ((5 : ℚ)/2) (5/2) 1 0 0 (2/3) 512 _
      (castColumn_center_grid5 (2/3))⟩

/-- C8 counterexample: a tick of the frame loop's entity phase in which
a bullet kills an enemy: after the cleanup phase the enemy list still
contains the now-dead enemy (the loop never filters the enemy list), so
not every entity collection contains only alive entities. -/
theorem c8_cleanup_counterexample :
    ((tickEntities grid5 (5/2) (5/2) 0
        [⟨5/2, 5/2, 0, 0, true, 0, 1/5⟩]
        [⟨5/2, 5/2, true, 7/20, 7/5, 7/5, 1/2, 1⟩]
        [] 20).2.1.all (fun e => e.alive)) = false := by
  have htr : trunc ((5 : ℝ)/2) = 2 :=
    trunc_eq _ 2 (by norm_num) (by norm_num) (by norm_num)
  have hupd : Bullet.update grid5
      (⟨5/2, 5/2, 0, 0, true, 0, 1/5⟩ : Bullet ℝ) 0 =
      ⟨5/2, 5/2, 0, 0, true, 0, 1/5⟩ := by
    unfold Bullet.update
    norm_num [htr]
    decide
  have hscan : scanEnemies (⟨5/2, 5/2, 0, 0, true, 0, 1/5⟩ : Bullet ℝ)
      [⟨5/2, 5/2, true, 7/20, 7/5, 7/5, 1/2, 1⟩] =
      (false, [⟨5/2, 5/2, false, 7/20, 7/5, 7/5, 1/2, 0⟩]) := by
    unfold scanEnemies
    norm_num [Enemy.take_damage]
  have hstep : stepBullets grid5 0
      [⟨5/2, 5/2, 0, 0, true, 0, 1/5⟩]
      [⟨5/2, 5/2, true, 7/20, 7/5, 7/5, 1/2, 1⟩] =
      ([⟨5/2, 5/2, 0, 0, false, 0, 1/5⟩],
       [⟨5/2, 5/2, false, 7/20, 7/5, 7/5, 1/2, 0⟩]) := by
    unfold stepBullets
    rw [hupd]
    norm_num [hscan]
    unfold stepBullets
    norm_num
  unfold tickEntities
  rw [hstep]
  norm_num [Enemy.update, updateBoxes, List.filter, List.all]

/-- C8 amended: after the cleanup phase of a tick and before batch
building, the bullet list and the ammo-box list contain only alive
entities; the enemy list is not filtered by the frame loop and may
retain non-alive enemies. -/
theorem c8_cleanup_amended (g : Grid) (px py dt : ℝ)
    (bullets : List (Bullet ℝ)) (enemies : List (Enemy ℝ))
    (boxes : List (AmmoBox ℝ)) (ammo : ℤ) :
    ((tickEntities g px py dt bullets enemies boxes ammo).1.all
      (fun b => b.alive)) = true ∧
    ((tickEntities g px py dt bullets enemies boxes ammo).2.2.1.all
      (fun box => box.alive)) = true := by
  unfold tickEntities
  constructor <;>
  · rw [List.all_eq_true]
    intro a ha
    exact (List.mem_filter.mp ha).2

end Wolfie3d
